import Mathlib

/-!
Shallow embedding of the AirShare repository's two protocol engines
(TCP file transfer in `src-tauri/src/file_transfer.rs`, UDP discovery in
`src-tauri/src/main.rs`) and proofs about the spec's claims.

Modelling conventions:
* machine integers (`u64`, `u128`, `usize`) become `Nat`; the one place a
  subtraction could underflow (`calculate_eta`) is modelled with an explicit
  `Option` (`none` = the debug-mode panic of Rust `u64` underflow);
* socket and file I/O results are inputs to the model: a byte stream is a
  `List Nat` of byte values, a sequence of chunked reads is a
  `List (Option Nat)` of raw read outcomes (`none` = I/O error, `some n` =
  `n` bytes delivered, clamped by the request size as the OS contract
  guarantees), a sequence of writes is a `List Bool` of success flags;
* external library calls with no protocol logic (serde JSON parsing, UTF-8
  validation, the OS folder dialog, the user's button press) are oracle
  fields of the environment records;
* `f64` arithmetic inside `calculate_eta` is modelled over `ℚ` with a final
  floor, matching the `as u128` truncating cast; the claims proved about it
  do not depend on float rounding.
-/

namespace AirShare

/-! ### Byte-by-byte line reading

Both `start_file_server` (header line, 16 KiB cap) and
`send_file_with_progress` (ack line, 8 KiB cap) read one byte at a time
until `\n`, aborting once the accumulated buffer exceeds the cap.
`readLineAux cap input acc` mirrors that loop: `acc` is the buffer so far
(stored reversed), `input` the remaining socket bytes; exhausting `input`
models a failed `read_exact`. -/

inductive LineRead where
  | readErr : LineRead
  | tooLarge : LineRead
  | line : List Nat → LineRead
deriving DecidableEq, Repr

def readLineAux (cap : Nat) : List Nat → List Nat → LineRead
  | [], _ => .readErr
  | b :: rest, acc =>
    if b = 10 then .line acc.reverse
    else if cap < acc.length + 1 then .tooLarge
    else readLineAux cap rest (b :: acc)

/-! ### Transfer history (`TransferRecord`, `add_recent_transfer`)

The source record also carries a UUID, timestamps and a computed speed;
those come from the ambient clock/UUID generator and are irrelevant to
every claim, so the model keeps the fields the claims mention. -/

inductive TransferType where
  | Sent : TransferType
  | Received : TransferType
deriving DecidableEq, Repr

inductive TransferStatus where
  | Completed : TransferStatus
  | Cancelled : TransferStatus
  | Failed : TransferStatus
deriving DecidableEq, Repr

structure TransferRecord where
  file_name : String
  file_size : Nat
  transfer_type : TransferType
  status : TransferStatus
deriving DecidableEq, Repr

/-! ### `calculate_eta` (file_transfer.rs lines 172-202)

Rust computes `total_bytes - bytes_transferred` on `u64` (panic on
underflow in debug builds, modelled as `none`), then an `f64` rate and a
truncating `as u128` cast, modelled as an exact rational with a floor. The
`{:.0}` float formatting is modelled as round-half-up on the millisecond
count. -/

def formatEta (eta_ms : Nat) : String :=
  if eta_ms < 1000 then
    toString eta_ms ++ "ms rimanenti"
  else if eta_ms < 60000 then
    toString ((eta_ms + 500) / 1000) ++ "s rimanenti"
  else if eta_ms < 3600000 then
    toString (eta_ms / 60000) ++ "m " ++ toString ((eta_ms % 60000) / 1000) ++ "s rimanenti"
  else
    toString (eta_ms / 3600000) ++ "h " ++ toString ((eta_ms % 3600000) / 60000) ++ "m rimanenti"

def calculate_eta (bytes_transferred total_bytes : Nat) (elapsed_ms : Nat) :
    Option (Nat × String) :=
  if bytes_transferred = 0 ∨ elapsed_ms = 0 then
    some (0, "Calcolo ETA...")
  else if total_bytes < bytes_transferred then
    none
  else
    let bytes_remaining := total_bytes - bytes_transferred
    let bytes_per_ms : ℚ := (bytes_transferred : ℚ) / (elapsed_ms : ℚ)
    if bytes_per_ms ≤ 0 then
      some (0, "Calcolo ETA...")
    else
      let eta_ms : Nat := (((bytes_remaining : ℚ) / bytes_per_ms).floor).toNat
      some (eta_ms, formatEta eta_ms)

/-! ### Sender: `send_file_with_progress` (file_transfer.rs lines 951-1402)

`send_file` merely forwards to `send_file_with_progress`, so one model
covers both.  The environment collects the outcome of every external
interaction, in the order the code performs them. -/

/-- Result of UTF-8-decoding and serde-parsing the ack line. `value` holds
the optional `accept` bool and optional `error` string exactly as the code
reads them out of the JSON value with `get(..)` / `as_bool` / `as_str`. -/
inductive AckDecode where
  | notUtf8 : AckDecode
  | badJson : AckDecode
  | value : Option Bool → Option String → AckDecode
deriving DecidableEq

inductive SendError where
  | connectErr : SendError
  | headerWriteErr : SendError
  | ackReadErr : SendError
  | ackTooLarge : SendError
  | ackNotUtf8 : SendError
  | ackBadJson : SendError
  | rejectedByPeer : String → SendError
  | fileOpenErr : SendError
  | chunkReadErr : SendError
  | chunkWriteErr : SendError
deriving DecidableEq, Repr

structure SendEnv where
  /-- Result of `fs::metadata(&path).len()` -/
  fileSizeMeta : Nat
  /-- Whether `TcpStream::connect` succeeds -/
  connectOk : Bool
  /-- Whether `stream.write_all(header_line)` succeeds -/
  headerWriteOk : Bool
  /-- raw bytes the peer sends back for the ack line -/
  ackBytes : List Nat
  /-- oracle for `String::from_utf8` + `serde_json::from_str` on the ack line -/
  ackDecode : List Nat → AckDecode
  /-- Whether `fs::File::open(&path)` succeeds -/
  fileOpenOk : Bool
  /-- outcomes of successive `file.read` calls (`none` = I/O error) -/
  fileReads : List (Option Nat)
  /-- outcomes of successive `stream.write_all` chunk writes -/
  fileWriteOks : List Bool

structure SendOutcome where
  result : Except SendError Unit
  /-- bytes of the file written to the socket -/
  sent : Nat
  /-- history records appended by `add_recent_transfer` during the call -/
  records : List TransferRecord

/-- The chunk request size: `std::cmp::min(buffer.len(), file_size - sent)`
with a 64 KiB buffer; used identically by the sender and receiver loops. -/
def chunkRequest (fileSize done : Nat) : Nat :=
  min 65536 (fileSize - done)

/-- The sender's `while sent < file_size` chunk loop.  A raw read of `n`
bytes is clamped by the request size (the OS never returns more than
requested); `n = 0` reproduces the `if n == 0 { break; }` early exit, which
falls through to the success epilogue. Returns the error (if any) together
with the final `sent` count. -/
def sendLoop (fileSize : Nat) (sent : Nat) :
    List (Option Nat) → List Bool → Option SendError × Nat
  | reads, writes =>
    if fileSize ≤ sent then (none, sent)
    else
      match reads with
      | [] => (some .chunkReadErr, sent)
      | none :: _ => (some .chunkReadErr, sent)
      | some n :: rest =>
        let m := min n (chunkRequest fileSize sent)
        if m = 0 then (none, sent)
        else
          match writes with
          | false :: _ => (some .chunkWriteErr, sent)
          | true :: wrest => sendLoop fileSize (sent + m) rest wrest
          | [] => sendLoop fileSize (sent + m) rest []

def mkSendRecord (name : String) (size : Nat) (s : TransferStatus) : TransferRecord :=
  { file_name := name, file_size := size, transfer_type := .Sent, status := s }

/-- Spec-side summary of which history records each sender error leaves
behind (used to state the amended C2). -/
def expectedRecords (name : String) (size : Nat) : SendError → List TransferRecord
  | .ackTooLarge => []
  | .ackNotUtf8 => []
  | .ackBadJson => []
  | .rejectedByPeer _ => [mkSendRecord name size .Cancelled]
  | _ => [mkSendRecord name size .Failed]

/-- Model of `send_file_with_progress`: connect → write header line → read ack line
(8 KiB cap) → decode ack → either bail on rejection (Cancelled record) or
stream the file in chunks.  Matches the source's error paths one by one;
note that the oversized-ack `bail!` and the two malformed-ack paths return
without calling `add_recent_transfer`. -/
def send_file_with_progress (env : SendEnv) (fileName : String) : SendOutcome :=
  let failed : List TransferRecord := [mkSendRecord fileName env.fileSizeMeta .Failed]
  if env.connectOk = false then
    { result := .error .connectErr, sent := 0, records := failed }
  else if env.headerWriteOk = false then
    { result := .error .headerWriteErr, sent := 0, records := failed }
  else
    match readLineAux 8192 env.ackBytes [] with
    | .readErr => { result := .error .ackReadErr, sent := 0, records := failed }
    | .tooLarge => { result := .error .ackTooLarge, sent := 0, records := [] }
    | .line l =>
      match env.ackDecode l with
      | .notUtf8 => { result := .error .ackNotUtf8, sent := 0, records := [] }
      | .badJson => { result := .error .ackBadJson, sent := 0, records := [] }
      | .value acc err =>
        if acc.getD false = false then
          { result := .error (.rejectedByPeer (err.getD "rejected")), sent := 0,
            records := [mkSendRecord fileName env.fileSizeMeta .Cancelled] }
        else if env.fileOpenOk = false then
          { result := .error .fileOpenErr, sent := 0, records := failed }
        else
          match sendLoop env.fileSizeMeta 0 env.fileReads env.fileWriteOks with
          | (some e, s) => { result := .error e, sent := s, records := failed }
          | (none, s) =>
            { result := .ok (), sent := s,
              records := [mkSendRecord fileName env.fileSizeMeta .Completed] }

/-! ### Receiver: the per-connection task spawned by `start_file_server`
(file_transfer.rs lines 462-922)

Shared mutable state: `BATCH_RESPONSES : HashMap<String, (bool, Option<PathBuf>)>`
is threaded through explicitly as `BatchMap`.  The user's accept/deny
answer (`TRANSFER_RESPONSES`, filled by `respond_transfer`) and the folder
dialog result are modelled as poll schedules `Nat → Option _`: the value
the busy-poll loop would observe on its i-th check, `none` while the human
has not answered yet.  The folder dialog callback only ever stores
`Some path` (a cancelled dialog stores `None`, which the `is_some` poll
cannot distinguish from "no answer yet"), so its schedule yields the chosen
path directly. -/

structure FileOffer where
  transfer_id : String
  file_name : String
  file_size : Nat
  mime : String
  sha256 : Option String
  batch_id : Option String
deriving DecidableEq, Repr

/-- Oracle result of `String::from_utf8` + `serde_json::from_str::<FileOffer>`
on the header line. -/
inductive HeaderDecode where
  | notUtf8 : HeaderDecode
  | badJson : HeaderDecode
  | offer : FileOffer → HeaderDecode
deriving DecidableEq

/-- Observable actions of one receiving connection, in program order. -/
inductive REvent where
  /-- one `{accept: _, error: _}` line written to the socket -/
  | ackLine : Bool → Option String → REvent
  /-- Event: `serde_json::from_str` attempted on the completed header line -/
  | parseHeader : REvent
  /-- Event: `transfer_request` emitted to the frontend, the accept/reject prompt -/
  | promptUser : REvent
  /-- Event: `transfer_auto_accepted` emitted (trusted-sender path) -/
  | autoAcceptNotice : REvent
  /-- folder picker dialog opened -/
  | folderDialog : REvent
  /-- Event: `transfer_rejected` emitted -/
  | emitRejected : REvent
  /-- destination `File::create` succeeded -/
  | fileCreate : REvent
  /-- Event: `file.sync_all()` called -/
  | fsync : REvent
  /-- Event: `transfer_complete` emitted -/
  | emitComplete : REvent
  /-- Event: `add_recent_transfer` appended a history record with this status -/
  | record : TransferStatus → REvent
deriving DecidableEq, Repr

inductive ConnOutcome where
  /-- header could not be read at all; no ack possible -/
  | noAck : ConnOutcome
  /-- a negative ack with this error reason was written and the task returned -/
  | nacked : String → ConnOutcome
  /-- writing the ack line failed -/
  | ackWriteFailed : ConnOutcome
  /-- accepted, but the batch map held no destination dir (`user_cancelled`) -/
  | cancelledNoDir : ConnOutcome
  /-- Outcome: `create_dir_all` failed -/
  | dirCreateFailed : ConnOutcome
  /-- destination `File::create` failed -/
  | fileCreateFailed : ConnOutcome
  /-- body receive aborted (peer closed early, read or write error) -/
  | failedTransfer : ConnOutcome
  /-- full body received; payload = bytes written to the destination file -/
  | completed : Nat → ConnOutcome
  /-- model artifact: the fuel bound was reached while the code's untimed
  busy-poll loop was still waiting for the human -/
  | stillPolling : ConnOutcome
deriving DecidableEq, Repr

/-- Model of `BATCH_RESPONSES`: batch_id -> (accept, chosen destination dir). -/
def BatchMap : Type := List (String × Bool × Option String)

def batchLookup : BatchMap → String → Option (Bool × Option String)
  | [], _ => none
  | (k, a, d) :: rest, key => if k = key then some (a, d) else batchLookup rest key

def batchInsert (m : BatchMap) (key : String) (v : Bool × Option String) : BatchMap :=
  (key, v.1, v.2) :: m

def batchRemove (m : BatchMap) (key : String) : BatchMap :=
  m.filter (fun e => decide (e.1 ≠ key))

/-- The sleep-and-recheck wait: polls the schedule at indices `i, i+1, ...`
for at most `fuel` checks and returns the first answer seen.  In the
trusted path the code itself bounds the loop (300 s at one check per
100 ms); elsewhere `fuel` is only the model's observation bound — the code
loops forever. -/
def pollSched (sched : Nat → Option α) : Nat → Nat → Option α
  | 0, _ => none
  | fuel + 1, i =>
    match sched i with
    | some v => some v
    | none => pollSched sched fuel (i + 1)

/-- Number of result checks the trusted-path folder wait performs before
its 300-second timeout fires (one check per 100 ms sleep). -/
def folderTimeoutPolls : Nat := 3000

/-- The receiver's body loop: `while received < offer.file_size`, request
`chunkRequest` bytes, append the chunk to the file.  `some w` = loop ran to
completion having written `w` bytes; `none` = early peer close (`Ok(0)`),
socket read error, or file write error, each of which makes the task
return with no further action. -/
def recvLoop (fileSize : Nat) (received : Nat) :
    List (Option Nat) → List Bool → Option Nat
  | reads, writes =>
    if fileSize ≤ received then some received
    else
      match reads with
      | [] => none
      | none :: _ => none
      | some n :: rest =>
        let m := min n (chunkRequest fileSize received)
        if m = 0 then none
        else
          match writes with
          | false :: _ => none
          | true :: wrest => recvLoop fileSize (received + m) rest wrest
          | [] => recvLoop fileSize (received + m) rest []

structure RecvEnv where
  /-- raw bytes arriving before the body (the header line) -/
  headerBytes : List Nat
  /-- oracle for UTF-8 + serde decoding of the header line -/
  headerDecode : List Nat → HeaderDecode
  /-- Value of `addr.ip().to_string()` for the connecting peer -/
  senderIp : String
  /-- Value of `read_settings().auto_accept_trusted` -/
  autoAcceptTrusted : Bool
  /-- Value of `read_trusted_ips()` -/
  trustedIps : List String
  /-- poll schedule of `TRANSFER_RESPONSES[transfer_id]` (user's button) -/
  userResp : Nat → Option Bool
  /-- poll schedule of the folder dialog result -/
  folderResp : Nat → Option String
  /-- Whether `socket.write_all(ack_str)` succeeds -/
  ackWriteOk : Bool
  /-- Whether `create_dir_all(&save_dir)` succeeds -/
  createDirOk : Bool
  /-- destination `File::create` succeeds -/
  fileCreateOk : Bool
  /-- outcomes of successive body `socket.read` calls -/
  bodyReads : List (Option Nat)
  /-- outcomes of successive body `file.write_all` calls -/
  bodyWriteOks : List Bool

/-- Epilogue of the accepted path: receive the body, fsync, emit
completion, append the Completed history record (lines 816-912). -/
def recvBody (fileSize : Nat) (reads : List (Option Nat)) (writes : List Bool)
    (m : BatchMap) (evs : List REvent) : ConnOutcome × BatchMap × List REvent :=
  match recvLoop fileSize 0 reads writes with
  | none => (.failedTransfer, m, evs)
  | some w =>
    (.completed w, m, evs ++ [.fsync, .emitComplete, .record .Completed])

/-- From "Send ack JSON" (line 737) to the end of the task: write the ack,
bail out on rejection or missing directory (removing the batch entry the
connection itself created, `is_batch_first`), create the file, and stream
the body. -/
def finishConn (env : RecvEnv) (o : FileOffer) (batchId : String)
    (accept : Bool) (isBatchFirst : Bool) (m : BatchMap) (evs : List REvent) :
    ConnOutcome × BatchMap × List REvent :=
  if env.ackWriteOk = false then
    (.ackWriteFailed, if isBatchFirst then batchRemove m batchId else m, evs)
  else
    let evs := evs ++ [if accept then REvent.ackLine true none
                       else REvent.ackLine false (some "user_rejected")]
    if accept = false then
      (.nacked "user_rejected", if isBatchFirst then batchRemove m batchId else m, evs)
    else
      match (batchLookup m batchId).bind (fun p => p.2) with
      | none =>
        (.cancelledNoDir, if isBatchFirst then batchRemove m batchId else m,
         evs ++ [.emitRejected])
      | some _ =>
        if env.createDirOk = false then
          (.dirCreateFailed, if isBatchFirst then batchRemove m batchId else m, evs)
        else if env.fileCreateOk = false then
          (.fileCreateFailed, m, evs)
        else
          recvBody o.file_size env.bodyReads env.bodyWriteOks m (evs ++ [.fileCreate])

/-- One receiving connection, from reading the header line to task exit.
`fuel` bounds only the two untimed busy-poll loops of the non-trusted path
(the code there has no timeout); the trusted-path folder wait is bounded by
the code's own `folderTimeoutPolls`. -/
def handleConn (env : RecvEnv) (fuel : Nat) (m : BatchMap) :
    ConnOutcome × BatchMap × List REvent :=
  match readLineAux 16384 env.headerBytes [] with
  | .readErr => (.noAck, m, [])
  | .tooLarge =>
    (.nacked "header too large or missing newline", m,
     [.ackLine false (some "header too large or missing newline")])
  | .line l =>
    match env.headerDecode l with
    | .notUtf8 => (.nacked "invalid utf8 in header", m,
                   [.parseHeader, .ackLine false (some "invalid utf8 in header")])
    | .badJson => (.nacked "invalid json", m,
                   [.parseHeader, .ackLine false (some "invalid json")])
    | .offer o =>
      let batchId := o.batch_id.getD o.transfer_id
      match batchLookup m batchId with
      | some p =>
        -- existing batch decision: reuse verbatim, no prompt
        finishConn env o batchId p.1 false m [.parseHeader]
      | none =>
        if env.autoAcceptTrusted = true ∧ env.trustedIps.contains env.senderIp = true then
          -- trusted path: accept forced true, only the folder is asked,
          -- with the code's explicit 300 s timeout
          match pollSched env.folderResp folderTimeoutPolls 0 with
          | none =>
            (.nacked "timeout_folder_selection", m,
             [.parseHeader, .autoAcceptNotice, .folderDialog,
              .ackLine false (some "timeout_folder_selection")])
          | some dir =>
            let m := batchInsert m batchId (true, some dir)
            finishConn env o batchId true true m
              [.parseHeader, .autoAcceptNotice, .folderDialog]
        else
          -- normal path: prompt the user; the wait has no timeout
          match pollSched env.userResp fuel 0 with
          | none => (.stillPolling, m, [.parseHeader, .promptUser])
          | some acc =>
            if acc then
              -- accepted: folder dialog, again an untimed wait
              match pollSched env.folderResp fuel 0 with
              | none => (.stillPolling, m, [.parseHeader, .promptUser, .folderDialog])
              | some dir =>
                let m := batchInsert m batchId (true, some dir)
                finishConn env o batchId true true m
                  [.parseHeader, .promptUser, .folderDialog]
            else
              -- rejected: still saved to BATCH_RESPONSES first (line 727)
              let m := batchInsert m batchId (false, none)
              finishConn env o batchId false true m [.parseHeader, .promptUser]

/-! ### Discovery: `udp_listener_loop`, `cleanup_loop`, `get_devices`
(main.rs lines 214-288)

Time is modelled in whole seconds as `Nat`; `Instant::duration_since` is
saturating subtraction, exactly `Nat` subtraction. -/

structure Device where
  name : String
  ip : String
  port : Nat
  status : String
  last_seen : String
  mac : Option String
deriving DecidableEq, Repr

structure DeviceEntry where
  device : Device
  last_seen_instant : Nat
deriving DecidableEq, Repr

def HEARTBEAT_INTERVAL_SECS : Nat := 2
def DEVICE_TIMEOUT_SECS : Nat := 5

/-- Model of `devs.iter_mut().find(|d| d.device.ip == dev.ip)`: refresh the first
entry with the same ip, otherwise push a new entry. -/
def upsertDevice : List DeviceEntry → Device → Nat → List DeviceEntry
  | [], dev, now => [⟨dev, now⟩]
  | e :: rest, dev, now =>
    if e.device.ip = dev.ip then ⟨dev, now⟩ :: rest
    else e :: upsertDevice rest dev now

/-- One iteration of `udp_listener_loop` on a received datagram.
`none` = the datagram failed to parse as a `Device` (dropped with a warn).
When `get_local_ip()` is `Some` and the payload ip equals it, the heartbeat
is discarded; when it is `None` the code only warns and upserts anyway. -/
def udpListenerStep (localIp : Option String) (devs : List DeviceEntry)
    (datagram : Option Device) (now : Nat) : List DeviceEntry :=
  match datagram with
  | none => devs
  | some dev =>
    match localIp with
    | some l => if dev.ip = l then devs else upsertDevice devs dev now
    | none => upsertDevice devs dev now

/-- One sweep of `cleanup_loop`:
`devs.retain(|e| now.duration_since(e.last_seen_instant).as_secs() < DEVICE_TIMEOUT_SECS)`. -/
def cleanupSweep (devs : List DeviceEntry) (now : Nat) : List DeviceEntry :=
  devs.filter (fun e => now - e.last_seen_instant < DEVICE_TIMEOUT_SECS)

/-- The two loops interleave on the shared registry; a run is a sequence of
these events. -/
inductive DiscEvent where
  /-- Event: `udp_listener_loop` processed a datagram at this instant -/
  | datagram : Option Device → Nat → DiscEvent
  /-- Event: `cleanup_loop` swept at this instant -/
  | sweep : Nat → DiscEvent
deriving DecidableEq

def discStep (localIp : Option String) (devs : List DeviceEntry) :
    DiscEvent → List DeviceEntry
  | .datagram d now => udpListenerStep localIp devs d now
  | .sweep now => cleanupSweep devs now

def discRun (localIp : Option String) (devs : List DeviceEntry) :
    List DiscEvent → List DeviceEntry
  | [] => devs
  | ev :: rest => discRun localIp (discStep localIp devs ev) rest

/-- Model of `get_devices`: point-in-time snapshot of the registry. -/
def get_devices (devs : List DeviceEntry) : List Device :=
  devs.map (fun e => e.device)

/-! ### Concrete scenarios used by witnesses and counterexamples -/

/-- Sender scenario: the receiver streams back 8193 bytes of `A` with no
newline — an oversized ack line. -/
def envAckTooLarge : SendEnv :=
  { fileSizeMeta := 1, connectOk := true, headerWriteOk := true,
    ackBytes := List.replicate 8193 65, ackDecode := fun _ => .badJson,
    fileOpenOk := true, fileReads := [], fileWriteOks := [] }

/-- Sender scenario: accepted transfer of a 5-byte file whose second read
returns 0 bytes (the file shrank after `fs::metadata`). -/
def envEarlyEof : SendEnv :=
  { fileSizeMeta := 5, connectOk := true, headerWriteOk := true,
    ackBytes := [10], ackDecode := fun _ => .value (some true) none,
    fileOpenOk := true, fileReads := [some 3, some 0], fileWriteOks := [true, true] }

/-- Sender scenario: accepted transfer of a 5-byte file fully delivered in
two chunks. -/
def envFullSend : SendEnv :=
  { fileSizeMeta := 5, connectOk := true, headerWriteOk := true,
    ackBytes := [10], ackDecode := fun _ => .value (some true) none,
    fileOpenOk := true, fileReads := [some 3, some 2], fileWriteOks := [true, true] }

/-- Sender scenario: the receiver answers `{accept:false, error:"user_rejected"}`. -/
def envPeerReject : SendEnv :=
  { fileSizeMeta := 3, connectOk := true, headerWriteOk := true,
    ackBytes := [10], ackDecode := fun _ => .value (some false) (some "user_rejected"),
    fileOpenOk := true, fileReads := [], fileWriteOks := [] }

/-- Sender scenario: `TcpStream::connect` fails. -/
def envConnectFail : SendEnv :=
  { fileSizeMeta := 7, connectOk := false, headerWriteOk := true,
    ackBytes := [10], ackDecode := fun _ => .badJson,
    fileOpenOk := true, fileReads := [], fileWriteOks := [] }

/-- Receiver scenario: a 17 KiB header line with no newline. -/
def envBigHeader : RecvEnv :=
  { headerBytes := List.replicate 17408 65, headerDecode := fun _ => .notUtf8,
    senderIp := "192.168.1.4", autoAcceptTrusted := false, trustedIps := [],
    userResp := fun _ => none, folderResp := fun _ => none,
    ackWriteOk := true, createDirOk := true, fileCreateOk := true,
    bodyReads := [], bodyWriteOks := [] }

/-- Offer used by the prompt-wait scenario. -/
def offerNoAnswer : FileOffer :=
  { transfer_id := "t3", file_name := "song.mp3", file_size := 9,
    mime := "audio/mpeg", sha256 := none, batch_id := some "b3" }

/-- Receiver scenario: untrusted sender, and the human never presses
accept or reject. -/
def envNoAnswer : RecvEnv :=
  { headerBytes := [10], headerDecode := fun _ => .offer offerNoAnswer,
    senderIp := "192.168.1.7", autoAcceptTrusted := false, trustedIps := [],
    userResp := fun _ => none, folderResp := fun _ => none,
    ackWriteOk := true, createDirOk := true, fileCreateOk := true,
    bodyReads := [], bodyWriteOks := [] }

/-- The claim that the untrusted-path decision wait resolves (by answer or
timeout) after some bounded number of polls. -/
def noAnswerWaitResolves : Prop :=
  ∃ fuel, (handleConn envNoAnswer fuel []).1 ≠ ConnOutcome.stillPolling

/-- Offer used by the trusted-sender folder-timeout scenario. -/
def offerTrusted : FileOffer :=
  { transfer_id := "t5", file_name := "doc.pdf", file_size := 20,
    mime := "application/pdf", sha256 := none, batch_id := some "b5" }

/-- Receiver scenario: trusted sender with auto-accept on, but the human
never picks a destination folder. -/
def envTrustedNoFolder : RecvEnv :=
  { headerBytes := [10], headerDecode := fun _ => .offer offerTrusted,
    senderIp := "10.0.0.3", autoAcceptTrusted := true, trustedIps := ["10.0.0.3"],
    userResp := fun _ => none, folderResp := fun _ => none,
    ackWriteOk := true, createDirOk := true, fileCreateOk := true,
    bodyReads := [], bodyWriteOks := [] }

/-- First offer of batch `b1`. -/
def offerBatchFirst : FileOffer :=
  { transfer_id := "t1", file_name := "a.txt", file_size := 4,
    mime := "text/plain", sha256 := none, batch_id := some "b1" }

/-- Second offer of the same batch `b1`. -/
def offerBatchSecond : FileOffer :=
  { transfer_id := "t2", file_name := "b.txt", file_size := 4,
    mime := "text/plain", sha256 := none, batch_id := some "b1" }

/-- Receiver scenario for one offer of batch `b1`: untrusted sender, and
the human answers "reject" immediately whenever prompted. -/
def envBatchReject (o : FileOffer) : RecvEnv :=
  { headerBytes := [10], headerDecode := fun _ => .offer o,
    senderIp := "192.168.1.9", autoAcceptTrusted := false, trustedIps := [],
    userResp := fun _ => some false, folderResp := fun _ => none,
    ackWriteOk := true, createDirOk := true, fileCreateOk := true,
    bodyReads := [], bodyWriteOks := [] }

/-- Offer used by the completed-receive scenario. -/
def offerRecvDone : FileOffer :=
  { transfer_id := "t6", file_name := "photo.jpg", file_size := 5,
    mime := "image/jpeg", sha256 := none, batch_id := some "b6" }

/-- Receiver scenario: batch `b6` already accepted with a chosen folder;
the peer delivers the 5 body bytes in one chunk. -/
def envRecvDone : RecvEnv :=
  { headerBytes := [10], headerDecode := fun _ => .offer offerRecvDone,
    senderIp := "192.168.1.5", autoAcceptTrusted := false, trustedIps := [],
    userResp := fun _ => none, folderResp := fun _ => none,
    ackWriteOk := true, createDirOk := true, fileCreateOk := true,
    bodyReads := [some 5], bodyWriteOks := [true] }

/-- Batch map in which `b6` was already accepted into `/downloads`. -/
def mapRecvDone : BatchMap := [("b6", true, some "/downloads")]

/-- A peer device used by the discovery scenarios. -/
def devPeer : Device :=
  { name := "Laptop (Linux)", ip := "10.0.0.9", port := 40123,
    status := "Online", last_seen := "2026-01-01T00:00:00Z", mac := none }

/-- A self-heartbeat: the payload carries the local address. -/
def devSelf : Device :=
  { name := "Me (macOS)", ip := "10.0.0.1", port := 40123,
    status := "Online", last_seen := "2026-01-01T00:00:00Z", mac := none }

/-! ## Helper lemmas -/

/-- A run of `n` non-newline bytes that pushes the buffer past the cap makes
the byte-by-byte line reader return `tooLarge`. -/
theorem readLineAux_replicate_tooLarge (cap : Nat) (b : Nat) (hb : ¬ b = 10) :
    ∀ (n : Nat) (acc : List Nat), acc.length ≤ cap → cap + 1 ≤ acc.length + n →
      readLineAux cap (List.replicate n b) acc = .tooLarge := by
  intro n
  induction n with
  | zero =>
    intro acc hle hcap
    omega
  | succ m ih =>
    intro acc hle hcap
    rw [List.replicate_succ]
    unfold readLineAux
    rw [if_neg hb]
    by_cases h : cap < acc.length + 1
    · rw [if_pos h]
    · rw [if_neg h]
      apply ih
      · simpa using Nat.le_of_not_lt h
      · simp only [List.length_cons]
        omega

/-- A busy-poll wait over a schedule that never answers yields nothing, no
matter how long the model observes it. -/
theorem pollSched_none {α : Type} (sched : Nat → Option α)
    (h : ∀ i, sched i = none) : ∀ (fuel i : Nat), pollSched sched fuel i = none := by
  intro fuel
  induction fuel with
  | zero => intro i; rfl
  | succ f ih =>
    intro i
    unfold pollSched
    rw [h i]
    exact ih (i + 1)

/-! ## C10 — `calculate_eta` is total under `bytes_transferred ≤ total_bytes` -/

/-- C10: for every call to `calculate_eta` with
`bytes_transferred ≤ total_bytes` the function is total (the `u64`
subtraction `total_bytes - bytes_transferred` cannot underflow, modelled as
never returning `none`), and whenever `bytes_transferred = 0` or
`elapsed_ms = 0` it returns `(0, "Calcolo ETA...")` immediately, before any
rate is computed. -/
theorem c10_calculate_eta_total (b t e : Nat) (h : b ≤ t) :
    (calculate_eta b t e).isSome = true ∧
    (b = 0 ∨ e = 0 → calculate_eta b t e = some (0, "Calcolo ETA...")) := by
  constructor
  · unfold calculate_eta
    by_cases h0 : b = 0 ∨ e = 0
    · rw [if_pos h0]; rfl
    · rw [if_neg h0, if_neg (by omega : ¬ t < b)]
      dsimp only
      split <;> rfl
  · intro h0
    unfold calculate_eta
    rw [if_pos h0]

/-- C10 witness: `calculate_eta 50 100 1000` is defined. -/
theorem c10_calculate_eta_total_witness :
    (calculate_eta 50 100 1000).isSome = true ∧
    (50 = 0 ∨ 1000 = 0 → calculate_eta 50 100 1000 = some (0, "Calcolo ETA...")) :=
  c10_calculate_eta_total 50 100 1000 (by decide)

/-! ## C8 — oversized header line is nacked without parsing or file creation -/

/-- C8: whenever the header-line reader hits the 16 KiB cap without seeing a
newline, the connection task writes exactly one negative ack line
(`accept:false` with an error message) and returns: the trace contains no
`parseHeader`, no `fileCreate`, no history record — and the batch map is
untouched. -/
theorem c8_oversized_header_nack (env : RecvEnv) (fuel : Nat) (m : BatchMap)
    (h : readLineAux 16384 env.headerBytes [] = .tooLarge) :
    handleConn env fuel m =
      (.nacked "header too large or missing newline", m,
       [.ackLine false (some "header too large or missing newline")]) := by
  unfold handleConn
  rw [h]

/-- C8 witness: a 17 KiB header with no newline (17408 bytes of `A`). -/
theorem c8_oversized_header_nack_witness :
    handleConn envBigHeader 0 [] =
      (.nacked "header too large or missing newline", [],
       [.ackLine false (some "header too large or missing newline")]) :=
  c8_oversized_header_nack envBigHeader 0 []
    (readLineAux_replicate_tooLarge 16384 65 (by decide) 17408 []
      (by simp) (by simp))

/-! ## C7 — peer rejection: distinguished error, `Cancelled` record, no bytes -/

/-- C7: when the ack line parses with `accept = false`, the sender returns
the distinguished rejected-by-peer error carrying the receiver's error
string, appends exactly one history record with status `Cancelled`, and has
written zero file bytes to the socket. -/
theorem c7_rejected_by_peer (env : SendEnv) (name : String) (l : List Nat)
    (err : Option String)
    (hc : env.connectOk = true) (hh : env.headerWriteOk = true)
    (hl : readLineAux 8192 env.ackBytes [] = .line l)
    (hd : env.ackDecode l = .value (some false) err) :
    send_file_with_progress env name =
      { result := .error (.rejectedByPeer (err.getD "rejected")), sent := 0,
        records := [mkSendRecord name env.fileSizeMeta .Cancelled] } := by
  unfold send_file_with_progress
  rw [hc]
  simp only [Bool.true_eq_false, if_false]
  rw [hh]
  simp only [Bool.true_eq_false, if_false]
  rw [hl]
  dsimp only
  rw [hd]
  simp

/-- C7 witness: ack `{accept:false, error:"user_rejected"}`. -/
theorem c7_rejected_by_peer_witness :
    send_file_with_progress envPeerReject "a.txt" =
      { result := .error (.rejectedByPeer ((some "user_rejected").getD "rejected")),
        sent := 0,
        records := [mkSendRecord "a.txt" envPeerReject.fileSizeMeta .Cancelled] } :=
  c7_rejected_by_peer envPeerReject "a.txt" [] (some "user_rejected")
    rfl rfl rfl rfl

/-! ## Discovery lemmas shared by C5 and C9 -/

/-- The function `upsertDevice` only ever places the (unchanged) old entries or the new
entry `⟨dev, now⟩` in the registry. -/
theorem upsertDevice_preserve (P : DeviceEntry → Prop) :
    ∀ (devs : List DeviceEntry) (dev : Device) (now : Nat),
      (∀ e ∈ devs, P e) → P ⟨dev, now⟩ →
      ∀ e ∈ upsertDevice devs dev now, P e := by
  intro devs
  induction devs with
  | nil =>
    intro dev now _ hnew e he
    unfold upsertDevice at he
    simp at he
    subst he
    exact hnew
  | cons x rest ih =>
    intro dev now hall hnew e he
    unfold upsertDevice at he
    by_cases hip : x.device.ip = dev.ip
    · rw [if_pos hip] at he
      rcases List.mem_cons.1 he with h | h
      · subst h; exact hnew
      · exact hall e (List.mem_cons_of_mem _ h)
    · rw [if_neg hip] at he
      rcases List.mem_cons.1 he with h | h
      · subst h; exact hall _ (List.mem_cons_self _ _)
      · exact ih dev now (fun y hy => hall y (List.mem_cons_of_mem _ hy)) hnew e h

/-- The function `cleanupSweep` only removes entries. -/
theorem cleanupSweep_preserve (P : DeviceEntry → Prop)
    (devs : List DeviceEntry) (now : Nat) (hall : ∀ e ∈ devs, P e) :
    ∀ e ∈ cleanupSweep devs now, P e := by
  intro e he
  exact hall e (List.mem_of_mem_filter he)

/-- Once no registry entry carries ip `p` and no later heartbeat carries
ip `p`, the registry never holds ip `p` again, whatever the local ip is. -/
theorem discRun_ip_ne (localIp : Option String) (p : String) :
    ∀ (evs : List DiscEvent) (devs : List DeviceEntry),
      (∀ e ∈ devs, e.device.ip ≠ p) →
      (∀ d now, DiscEvent.datagram (some d) now ∈ evs → d.ip ≠ p) →
      ∀ e ∈ discRun localIp devs evs, e.device.ip ≠ p := by
  intro evs
  induction evs with
  | nil => intro devs hdevs _ e he; exact hdevs e he
  | cons ev rest ih =>
    intro devs hdevs hevs e he
    refine ih (discStep localIp devs ev) ?_ ?_ e he
    · match ev with
      | .datagram none now => exact hdevs
      | .datagram (some d) now =>
        have hd : d.ip ≠ p := hevs d now (List.mem_cons_self _ _)
        show ∀ e ∈ udpListenerStep localIp devs (some d) now, e.device.ip ≠ p
        unfold udpListenerStep
        match localIp with
        | some l =>
          dsimp only
          by_cases hl : d.ip = l
          · rw [if_pos hl]; exact hdevs
          · rw [if_neg hl]
            exact upsertDevice_preserve (fun e => e.device.ip ≠ p) devs d now hdevs hd
        | none =>
          dsimp only
          exact upsertDevice_preserve (fun e => e.device.ip ≠ p) devs d now hdevs hd
      | .sweep now =>
        exact cleanupSweep_preserve (fun e => e.device.ip ≠ p) devs now hdevs
    · intro d now hmem
      exact hevs d now (List.mem_cons_of_mem _ hmem)

/-! ## C5 — the registry never contains the local device's own address -/

/-- C5: as long as `get_local_ip()` resolves to `l`, processing any
sequence of datagrams and sweeps keeps every entry whose ip is `l` out of
the registry: a heartbeat whose payload ip equals the local ip is dropped
before any upsert, so the snapshot never shows the local address. -/
theorem c5_self_filtering (l : String) (devs : List DeviceEntry)
    (evs : List DiscEvent) (h : ∀ e ∈ devs, e.device.ip ≠ l) :
    ∀ d ∈ get_devices (discRun (some l) devs evs), d.ip ≠ l := by
  suffices hs : ∀ e ∈ discRun (some l) devs evs, e.device.ip ≠ l by
    intro d hd
    rcases List.mem_map.1 hd with ⟨e, he, rfl⟩
    exact hs e he
  induction evs generalizing devs with
  | nil => exact h
  | cons ev rest ih =>
    refine ih (discStep (some l) devs ev) ?_
    match ev with
    | .datagram none now => exact h
    | .datagram (some d) now =>
      show ∀ e ∈ udpListenerStep (some l) devs (some d) now, e.device.ip ≠ l
      unfold udpListenerStep
      dsimp only
      by_cases hl : d.ip = l
      · rw [if_pos hl]; exact h
      · rw [if_neg hl]
        exact upsertDevice_preserve (fun e => e.device.ip ≠ l) devs d now h hl
    | .sweep now =>
      exact cleanupSweep_preserve (fun e => e.device.ip ≠ l) devs now h

/-- C5 witness: a self-heartbeat for `10.0.0.1` followed by a peer
heartbeat and a sweep leaves exactly the peer in the snapshot, whose ip is
not the local one. -/
theorem c5_self_filtering_witness :
    devPeer.ip ≠ "10.0.0.1" ∧
    get_devices (discRun (some "10.0.0.1") []
        [.datagram (some devSelf) 0, .datagram (some devPeer) 1, .sweep 3]) =
      [devPeer] :=
  ⟨c5_self_filtering "10.0.0.1" []
    [.datagram (some devSelf) 0, .datagram (some devPeer) 1, .sweep 3]
    (by intro e he; cases he) devPeer (by decide), rfl⟩

/-! ## C9 — liveness eviction -/

/-- A sweep at time `t ≥ t0 + timeout` removes every entry of peer `p`
whose last heartbeat was at or before `t0`. -/
theorem cleanupSweep_evicts (devs : List DeviceEntry) (p : String) (t0 t : Nat)
    (hseen : ∀ e ∈ devs, e.device.ip = p → e.last_seen_instant ≤ t0)
    (ht : t0 + DEVICE_TIMEOUT_SECS ≤ t) :
    ∀ e ∈ cleanupSweep devs t, e.device.ip ≠ p := by
  intro e he hip
  have hf := List.mem_filter.1 he
  have hkeep : t - e.last_seen_instant < DEVICE_TIMEOUT_SECS := by
    simpa using hf.2
  have hls : e.last_seen_instant ≤ t0 := hseen e hf.1 hip
  simp only [DEVICE_TIMEOUT_SECS] at hkeep ht
  omega

/-- Steps that carry no heartbeat of `p` keep the bound "every `p` entry was
last seen at or before `t0`". -/
theorem discStep_preserve_seen (localIp : Option String) (p : String) (t0 : Nat)
    (devs : List DeviceEntry) (ev : DiscEvent)
    (hseen : ∀ e ∈ devs, e.device.ip = p → e.last_seen_instant ≤ t0)
    (hev : ∀ d now, ev = DiscEvent.datagram (some d) now → d.ip ≠ p) :
    ∀ e ∈ discStep localIp devs ev, e.device.ip = p → e.last_seen_instant ≤ t0 := by
  match ev with
  | .datagram none now => exact hseen
  | .datagram (some d) now =>
    have hd : d.ip ≠ p := hev d now rfl
    show ∀ e ∈ udpListenerStep localIp devs (some d) now, _
    unfold udpListenerStep
    match localIp with
    | some l =>
      dsimp only
      by_cases hl : d.ip = l
      · rw [if_pos hl]; exact hseen
      · rw [if_neg hl]
        exact upsertDevice_preserve
          (fun e => e.device.ip = p → e.last_seen_instant ≤ t0) devs d now hseen
          (fun hip => absurd hip hd)
    | none =>
      dsimp only
      exact upsertDevice_preserve
        (fun e => e.device.ip = p → e.last_seen_instant ≤ t0) devs d now hseen
        (fun hip => absurd hip hd)
  | .sweep now =>
    exact cleanupSweep_preserve
      (fun e => e.device.ip = p → e.last_seen_instant ≤ t0) devs now hseen

/-- Induction core of C9: a run with no heartbeat of `p` that contains a
sweep at some `t ≥ t0 + timeout` ends with no entry of `p`. -/
theorem discRun_evict_aux (localIp : Option String) (p : String) (t0 : Nat) :
    ∀ (evs : List DiscEvent) (devs : List DeviceEntry) (t : Nat),
      (∀ e ∈ devs, e.device.ip = p → e.last_seen_instant ≤ t0) →
      (∀ d now, DiscEvent.datagram (some d) now ∈ evs → d.ip ≠ p) →
      DiscEvent.sweep t ∈ evs → t0 + DEVICE_TIMEOUT_SECS ≤ t →
      ∀ e ∈ discRun localIp devs evs, e.device.ip ≠ p := by
  intro evs
  induction evs with
  | nil => intro devs t _ _ hmem _; cases hmem
  | cons ev rest ih =>
    intro devs t hseen hnohb hmem hge e he
    simp only [discRun] at he
    rcases List.mem_cons.1 hmem with hev | hmem'
    · subst hev
      simp only [discStep] at he
      refine discRun_ip_ne localIp p rest (cleanupSweep devs t) ?_ ?_ e he
      · exact cleanupSweep_evicts devs p t0 t hseen hge
      · intro d now hd
        exact hnohb d now (List.mem_cons_of_mem _ hd)
    · refine ih (discStep localIp devs ev) t ?_ ?_ hmem' hge e he
      · exact discStep_preserve_seen localIp p t0 devs ev hseen
          (fun d now hdev => hnohb d now (hdev ▸ List.mem_cons_self _ _))
      · intro d now hd
        exact hnohb d now (List.mem_cons_of_mem _ hd)

/-- C9: if every registry entry of peer `p` was last seen at or before
`t0`, no further heartbeat of `p` arrives, and — as the 1-second
`cleanup_loop` cadence guarantees — a sweep happens within one sweep
interval after the 5-second timeout elapses (at some `t` with
`t0 + 5 ≤ t ≤ t0 + 5 + 1`), then `p` is absent from the `get_devices`
snapshot from that sweep on. -/
theorem c9_liveness_eviction (localIp : Option String) (devs : List DeviceEntry)
    (evs : List DiscEvent) (p : String) (t0 : Nat)
    (hseen : ∀ e ∈ devs, e.device.ip = p → e.last_seen_instant ≤ t0)
    (hnohb : ∀ d now, DiscEvent.datagram (some d) now ∈ evs → d.ip ≠ p)
    (hsweep : ∃ t, DiscEvent.sweep t ∈ evs ∧ t0 + DEVICE_TIMEOUT_SECS ≤ t ∧
        t ≤ t0 + DEVICE_TIMEOUT_SECS + 1) :
    ∀ d ∈ get_devices (discRun localIp devs evs), d.ip ≠ p := by
  obtain ⟨t, hmem, hge, _⟩ := hsweep
  intro d hd
  rcases List.mem_map.1 hd with ⟨e, he, rfl⟩
  exact discRun_evict_aux localIp p t0 evs devs t hseen hnohb hmem hge e he

/-- C9 witness: peer `10.0.0.9` heard at t=0, sweeps at t=5 and t=6, no
further heartbeat — the snapshot is empty afterwards. -/
theorem c9_liveness_eviction_witness :
    get_devices (discRun (some "10.0.0.1") [⟨devPeer, 0⟩]
      [.sweep 5, .sweep 6]) = [] := by
  have h := c9_liveness_eviction (some "10.0.0.1") [⟨devPeer, 0⟩]
    [.sweep 5, .sweep 6] "10.0.0.9" 0
    (by intro e he hip; simp at he; simp [he])
    (by intro d now hd; simp at hd)
    ⟨5, by simp, by decide, by decide⟩
  exact rfl

/-! ## C2 — failure paths and history records on the sender -/

/-- C2 counterexample: an ack line of 8193 bytes with no newline makes
`send_file_with_progress` return an error (`bail!("Ack too large")`)
while writing **no** history record at all — the claim's "a Failed record
is written on every failure path, including oversized or malformed ack"
is false. -/
theorem c2_counterexample :
    (send_file_with_progress envAckTooLarge "report.pdf").result =
      .error .ackTooLarge ∧
    (send_file_with_progress envAckTooLarge "report.pdf").records = [] := by
  have h : readLineAux 8192 envAckTooLarge.ackBytes [] = .tooLarge :=
    readLineAux_replicate_tooLarge 8192 65 (by decide) 8193 [] (by simp) (by simp)
  have key : send_file_with_progress envAckTooLarge "report.pdf" =
      { result := .error .ackTooLarge, sent := 0, records := [] } := by
    unfold send_file_with_progress
    rw [show envAckTooLarge.connectOk = true from rfl]
    simp only [Bool.true_eq_false, if_false]
    rw [show envAckTooLarge.headerWriteOk = true from rfl]
    simp only [Bool.true_eq_false, if_false]
    rw [h]
  exact ⟨by rw [key], by rw [key]⟩

/-- The chunk loop can only fail with a chunk read or chunk write error. -/
theorem sendLoop_error_kinds (fileSize : Nat) :
    ∀ (reads : List (Option Nat)) (sent : Nat) (writes : List Bool) (s : Nat)
      (e : SendError),
      sendLoop fileSize sent reads writes = (some e, s) →
      e = .chunkReadErr ∨ e = .chunkWriteErr := by
  intro reads
  induction reads with
  | nil =>
    intro sent writes s e h
    unfold sendLoop at h
    split at h
    · simp at h
    · simp at h
      exact Or.inl h.1.symm
  | cons r rest ih =>
    intro sent writes s e h
    unfold sendLoop at h
    split at h
    · simp at h
    · cases r with
      | none =>
        simp at h
        exact Or.inl h.1.symm
      | some n =>
        dsimp only at h
        split at h
        · simp at h
        · split at h
          · simp at h
            exact Or.inr h.1.symm
          · exact ih _ _ _ _ h
          · exact ih _ _ _ _ h

/-- C2 amended: every error return of `send_file_with_progress` writes a
`Failed` history record — for connect, header-write, ack-read, file-open
and chunk read/write failures — except that a peer rejection writes
`Cancelled` and an oversized or malformed (non-UTF-8 / non-JSON) ack line
returns an error with no record at all. -/
theorem c2_amended_failure_records (env : SendEnv) (name : String) (e : SendError)
    (h : (send_file_with_progress env name).result = .error e) :
    (send_file_with_progress env name).records =
      expectedRecords name env.fileSizeMeta e := by
  generalize hout : send_file_with_progress env name = out at h ⊢
  unfold send_file_with_progress at hout
  repeat' split at hout
  all_goals subst hout
  all_goals simp only [] at h ⊢
  all_goals try (injection h with h; subst h; rfl)
  all_goals cases h
  all_goals rename_i heq
  all_goals obtain he | he := sendLoop_error_kinds _ _ _ _ _ _ heq
  all_goals rw [he]
  all_goals rfl

/-- C2 amended witness: a failed connect writes one `Failed` record. -/
theorem c2_amended_failure_records_witness :
    (send_file_with_progress envConnectFail "notes.txt").records =
      expectedRecords "notes.txt" envConnectFail.fileSizeMeta .connectErr :=
  c2_amended_failure_records envConnectFail "notes.txt" .connectErr rfl

/-! ## C4 — what an Ok return of the sender guarantees -/

/-- Each chunk transfers at most the remaining byte count. -/
theorem chunk_le (fileSize sent n : Nat) :
    min n (chunkRequest fileSize sent) ≤ fileSize - sent := by
  unfold chunkRequest
  exact le_trans (Nat.min_le_right _ _) (Nat.min_le_right _ _)

/-- The chunk loop never sends more than `fileSize` bytes. -/
theorem sendLoop_ok_le (fileSize : Nat) :
    ∀ (reads : List (Option Nat)) (sent : Nat) (writes : List Bool) (s : Nat),
      sent ≤ fileSize → sendLoop fileSize sent reads writes = (none, s) →
      s ≤ fileSize := by
  intro reads
  induction reads with
  | nil =>
    intro sent writes s hle h
    unfold sendLoop at h
    split at h
    · simp at h; omega
    · simp at h
  | cons r rest ih =>
    intro sent writes s hle h
    unfold sendLoop at h
    split at h
    · simp at h; omega
    · cases r with
      | none => simp at h
      | some n =>
        dsimp only at h
        have hm := chunk_le fileSize sent n
        split at h
        · simp at h; omega
        · split at h
          · simp at h
          · exact ih _ _ _ (by omega) h
          · exact ih _ _ _ (by omega) h

/-- If no file read ever returns 0 bytes, the chunk loop only exits
successfully once `sent` has reached `fileSize` exactly. -/
theorem sendLoop_ok_full (fileSize : Nat) :
    ∀ (reads : List (Option Nat)) (sent : Nat) (writes : List Bool) (s : Nat),
      sent ≤ fileSize →
      (∀ x ∈ reads, ∀ k, x = some k → 0 < k) →
      sendLoop fileSize sent reads writes = (none, s) →
      s = fileSize := by
  intro reads
  induction reads with
  | nil =>
    intro sent writes s hle _ h
    unfold sendLoop at h
    split at h
    · simp at h; omega
    · simp at h
  | cons r rest ih =>
    intro sent writes s hle hpos h
    unfold sendLoop at h
    split at h
    · simp at h; omega
    · cases r with
      | none => simp at h
      | some n =>
        have hn : 0 < n := hpos (some n) (List.mem_cons_self _ _) n rfl
        have hm := chunk_le fileSize sent n
        have hrest : ∀ x ∈ rest, ∀ k, x = some k → 0 < k :=
          fun x hx => hpos x (List.mem_cons_of_mem _ hx)
        dsimp only at h
        split at h
        · rename_i hns hz
          exfalso
          simp only [chunkRequest] at hz
          omega
        · split at h
          · simp at h
          · exact ih _ _ _ (by omega) hrest h
          · exact ih _ _ _ (by omega) hrest h

/-- C4 counterexample: a 5-byte file whose second read hits EOF after 3
bytes — `send_file_with_progress` still returns Ok having written only 3
of the 5 declared bytes (and records the transfer as Completed), so the
claim "every Ok return wrote exactly fileSize bytes" is false. -/
theorem c4_counterexample :
    (send_file_with_progress envEarlyEof "big.bin").result = .ok () ∧
    envEarlyEof.fileSizeMeta = 5 ∧
    (send_file_with_progress envEarlyEof "big.bin").sent = 3 :=
  ⟨rfl, rfl, rfl⟩

/-- C4 amended: on every Ok return of `send_file_with_progress` a
`Completed` history record exists and at most `fileSize` bytes were
written; the count equals `fileSize` exactly whenever no read of the
source file returns 0 bytes early (the code breaks out of its loop on a
0-byte read — e.g. a file truncated after `fs::metadata` — and still
reports success). -/
theorem c4_amended_completed_record (env : SendEnv) (name : String)
    (h : (send_file_with_progress env name).result = .ok ()) :
    (send_file_with_progress env name).records =
      [mkSendRecord name env.fileSizeMeta .Completed] ∧
    (send_file_with_progress env name).sent ≤ env.fileSizeMeta ∧
    ((∀ x ∈ env.fileReads, ∀ k, x = some k → 0 < k) →
      (send_file_with_progress env name).sent = env.fileSizeMeta) := by
  generalize hout : send_file_with_progress env name = out at h ⊢
  unfold send_file_with_progress at hout
  repeat' split at hout
  all_goals subst hout
  all_goals simp only [] at h ⊢
  all_goals cases h
  rename_i heq
  refine ⟨trivial, ?_, ?_⟩
  · exact sendLoop_ok_le _ _ _ _ _ (Nat.zero_le _) heq
  · intro hpos
    exact sendLoop_ok_full _ _ _ _ _ (Nat.zero_le _) hpos heq

/-- C4 amended witness: a 5-byte file delivered fully in chunks of 3 and 2. -/
theorem c4_amended_completed_record_witness :
    (send_file_with_progress envFullSend "big.bin").records =
      [mkSendRecord "big.bin" envFullSend.fileSizeMeta .Completed] ∧
    (send_file_with_progress envFullSend "big.bin").sent ≤ envFullSend.fileSizeMeta ∧
    ((∀ x ∈ envFullSend.fileReads, ∀ k, x = some k → 0 < k) →
      (send_file_with_progress envFullSend "big.bin").sent =
        envFullSend.fileSizeMeta) :=
  c4_amended_completed_record envFullSend "big.bin" rfl

/-! ## C6 — byte-exactness and ordering of a completed receive -/

/-- The receive loop only completes once `received = fileSize` exactly. -/
theorem recvLoop_some (fileSize : Nat) :
    ∀ (reads : List (Option Nat)) (received : Nat) (writes : List Bool) (w : Nat),
      received ≤ fileSize → recvLoop fileSize received reads writes = some w →
      w = fileSize := by
  intro reads
  induction reads with
  | nil =>
    intro received writes w hle h
    unfold recvLoop at h
    split at h
    · simp at h; omega
    · simp at h
  | cons r rest ih =>
    intro received writes w hle h
    unfold recvLoop at h
    split at h
    · simp at h; omega
    · cases r with
      | none => simp at h
      | some n =>
        dsimp only at h
        have hm := chunk_le fileSize received n
        split at h
        · simp at h
        · split at h
          · simp at h
          · exact ih _ _ _ (by omega) h
          · exact ih _ _ _ (by omega) h

/-- Splitting a five-element tail off an appended list. -/
theorem append_five {α : Type} (xs : List α) (a b c d e : α) :
    xs ++ [a, b, c, d, e] = (xs ++ [a]) ++ [b, c, d, e] := by simp

/-- The body phase ends `completed` only by receiving the full byte count,
and then appends fsync, completion event and `Completed` record in order. -/
theorem recvBody_completed (fileSize : Nat) (reads : List (Option Nat))
    (writes : List Bool) (m : BatchMap) (evs : List REvent)
    (w : Nat) (m2 : BatchMap) (evs2 : List REvent)
    (h : recvBody fileSize reads writes m evs = (.completed w, m2, evs2)) :
    w = fileSize ∧ evs2 = evs ++ [.fsync, .emitComplete, .record .Completed] := by
  unfold recvBody at h
  split at h
  · exact absurd h (by simp)
  · rename_i heq
    simp only [Prod.mk.injEq] at h
    obtain ⟨hco, _, hevs⟩ := h
    injection hco with hco
    subst hco
    exact ⟨recvLoop_some _ _ _ _ _ (Nat.zero_le _) heq, hevs.symm⟩

/-- If the post-ack phase of a connection ends `completed`, the byte count
is exactly the offer's `file_size` and the trace order is positive ack,
file creation, fsync, completion event, `Completed` history record. -/
theorem finishConn_completed (env : RecvEnv) (o : FileOffer) (batchId : String)
    (accept : Bool) (first : Bool) (m : BatchMap) (evs : List REvent)
    (w : Nat) (m2 : BatchMap) (evs2 : List REvent)
    (h : finishConn env o batchId accept first m evs = (.completed w, m2, evs2)) :
    w = o.file_size ∧
    evs2 = evs ++ [.ackLine true none, .fileCreate, .fsync, .emitComplete,
      .record .Completed] := by
  cases accept with
  | false =>
    exfalso
    unfold finishConn at h
    simp only [reduceIte, Bool.false_eq_true, if_false] at h
    split at h
    · simp at h
    · simp at h
  | true =>
    unfold finishConn at h
    simp only [reduceIte, Bool.true_eq_false, if_false] at h
    split at h
    · simp at h
    · split at h
      · simp at h
      · split at h
        · simp at h
        · split at h
          · simp at h
          · obtain ⟨hw, hevs⟩ := recvBody_completed _ _ _ _ _ _ _ _ h
            refine ⟨hw, ?_⟩
            rw [hevs]
            simp

/-- C6: every receiving connection that ends `completed` wrote exactly the
offer's declared `file_size` bytes to the destination file — the per-chunk
request never exceeds `file_size - received` — and the trace shows fsync
before the completion event before the `Completed` history record, all
after the file creation. -/
theorem c6_byte_exact_completion (env : RecvEnv) (fuel : Nat) (m : BatchMap)
    (w : Nat) (m2 : BatchMap) (evs : List REvent)
    (h : handleConn env fuel m = (.completed w, m2, evs)) :
    (∃ l o, readLineAux 16384 env.headerBytes [] = .line l ∧
       env.headerDecode l = .offer o ∧
       w = o.file_size ∧
       (∀ r : Nat, chunkRequest o.file_size r ≤ o.file_size - r)) ∧
    (∃ pre, evs = pre ++ [.fileCreate, .fsync, .emitComplete, .record .Completed]) := by
  unfold handleConn at h
  dsimp only at h
  repeat' split at h
  all_goals try (simp at h)
  all_goals obtain ⟨hw, hevs⟩ := finishConn_completed _ _ _ _ _ _ _ _ _ _ h
  all_goals
    exact ⟨⟨_, _, by assumption, by assumption, hw,
      fun r => Nat.min_le_right _ _⟩, _, hevs.trans (append_five _ _ _ _ _ _)⟩

/-- C6 witness: batch `b6` already accepted into `/downloads`; the 5 body
bytes arrive in one read. -/
theorem c6_byte_exact_completion_witness :
    (∃ l o, readLineAux 16384 envRecvDone.headerBytes [] = .line l ∧
       envRecvDone.headerDecode l = .offer o ∧
       5 = o.file_size ∧
       (∀ r : Nat, chunkRequest o.file_size r ≤ o.file_size - r)) ∧
    (∃ pre, [REvent.parseHeader, REvent.ackLine true none, REvent.fileCreate,
        REvent.fsync, REvent.emitComplete, REvent.record .Completed] =
      pre ++ [.fileCreate, .fsync, .emitComplete, .record .Completed]) :=
  c6_byte_exact_completion envRecvDone 0 mapRecvDone 5 mapRecvDone
    [REvent.parseHeader, REvent.ackLine true none, REvent.fileCreate,
     REvent.fsync, REvent.emitComplete, REvent.record .Completed] rfl

/-! ## C3 — are the human-input waits bounded by a timeout? -/

/-- C3 counterexample: an untrusted offer whose user never presses accept
or reject is *never* resolved — there is no poll count after which the
code's sleep-and-recheck loop on `TRANSFER_RESPONSES` gives up, sends a
timeout nack, or otherwise stops waiting.  The accept/reject wait (and the
normal-path folder wait) have no timeout; the claim that every
human-input wait is bounded is false. -/
theorem c3_counterexample : ¬ noAnswerWaitResolves := by
  rintro ⟨fuel, hne⟩
  apply hne
  show (handleConn envNoAnswer fuel []).1 = ConnOutcome.stillPolling
  have h1 : readLineAux 16384 envNoAnswer.headerBytes [] = .line [] := rfl
  have h2 : envNoAnswer.headerDecode [] = .offer offerNoAnswer := rfl
  unfold handleConn
  rw [h1]
  dsimp only
  rw [h2]
  dsimp only
  rw [show batchLookup []
        (offerNoAnswer.batch_id.getD offerNoAnswer.transfer_id) = none from rfl]
  dsimp only
  rw [if_neg (fun hc => Bool.noConfusion hc.1)]
  rw [pollSched_none envNoAnswer.userResp (fun i => rfl) fuel 0]

/-- C3 amended: only the trusted-sender (auto-accept) folder wait is
bounded: when the user never picks a folder it resolves — after the code's
300-second deadline, `folderTimeoutPolls` checks at one per 100 ms — to a
negative ack with the timeout-specific reason `timeout_folder_selection`
and leaves the batch map untouched.  The accept/reject wait and the
normal-path folder wait are unbounded sleep-and-recheck loops with no
timeout (see the counterexample). -/
theorem c3_amended_trusted_folder_timeout (env : RecvEnv) (fuel : Nat)
    (m : BatchMap) (l : List Nat) (o : FileOffer)
    (hl : readLineAux 16384 env.headerBytes [] = .line l)
    (hd : env.headerDecode l = .offer o)
    (hb : batchLookup m (o.batch_id.getD o.transfer_id) = none)
    (hauto : env.autoAcceptTrusted = true)
    (htrust : env.trustedIps.contains env.senderIp = true)
    (hfold : ∀ i, env.folderResp i = none) :
    handleConn env fuel m =
      (.nacked "timeout_folder_selection", m,
       [.parseHeader, .autoAcceptNotice, .folderDialog,
        .ackLine false (some "timeout_folder_selection")]) := by
  unfold handleConn
  rw [hl]
  dsimp only
  rw [hd]
  dsimp only
  rw [hb]
  dsimp only
  rw [if_pos ⟨hauto, htrust⟩]
  rw [pollSched_none env.folderResp hfold folderTimeoutPolls 0]

/-- C3 amended witness: trusted sender `10.0.0.3`, no folder ever picked. -/
theorem c3_amended_trusted_folder_timeout_witness :
    handleConn envTrustedNoFolder 0 [] =
      (.nacked "timeout_folder_selection", [],
       [.parseHeader, .autoAcceptNotice, .folderDialog,
        .ackLine false (some "timeout_folder_selection")]) :=
  c3_amended_trusted_folder_timeout envTrustedNoFolder 0 [] [] offerTrusted
    rfl rfl rfl rfl rfl (fun _ => rfl)

/-! ## C1 — does a rejected batch stay rejected? -/

/-- C1: the code contradicts the claim (and its own comment at the save
site, "even if rejected, to avoid repeated asks"): handling the first
offer of batch `b1` with the user answering "reject" stores the decision
but then deletes the `BATCH_RESPONSES` entry right after writing the
`user_rejected` nack, so the batch map ends empty and a second offer of
the same batch finds no stored decision and fires the accept/reject
prompt again. -/
theorem c1_rejected_batch_reprompts :
    (handleConn (envBatchReject offerBatchFirst) 1 []).1 =
      .nacked "user_rejected" ∧
    (handleConn (envBatchReject offerBatchFirst) 1 []).2.1 = [] ∧
    REvent.promptUser ∈ (handleConn (envBatchReject offerBatchFirst) 1 []).2.2 ∧
    REvent.promptUser ∈
      (handleConn (envBatchReject offerBatchSecond) 1
        ((handleConn (envBatchReject offerBatchFirst) 1 []).2.1)).2.2 :=
  ⟨rfl, rfl, by decide, by decide⟩

end AirShare
